import Mathlib

/-!
Verification development for the CivicConnectAi issue-reporting server.

The definitions below are a shallow embedding of the server code:
  - the field-fusion resolver of the POST /api/issues handler
    (src/server/openai.ts, lines 255-273) together with the normalisation
    performed by analyzeIssueImage (lines 53-61),
  - the PATCH /api/issues/:id/status handler (lines 297-321) over the
    DatabaseStorage operations updateIssue / addStatusHistory
    (src/unnamed/part_000, lines 132-152),
  - the statistics aggregator DatabaseStorage.getIssueStats
    (src/unnamed/part_000, lines 180-215).

JavaScript numbers are modelled as rationals plus an explicit NaN value;
timestamps are integers counting milliseconds; the persistence layer is a
pair of lists (issue rows, status-history rows).
-/

namespace CivicConnect

/-- The issue_status pg enum of shared/schema.ts. -/
inductive IssueStatus
  | submitted
  | acknowledged
  | in_progress
  | resolved
  | rejected
deriving DecidableEq, Repr

/-- A JavaScript number that may be NaN (all finite values as rationals). -/
inductive JsNumber
  | nan
  | val (q : ℚ)
deriving DecidableEq, Repr

/-- JS truthiness of a possibly-undefined string: defined and non-empty. -/
def optTruthy : Option String → Bool
  | none => false
  | some s => s ≠ ""

/-- JS `a || b` where `a` is a possibly-undefined string and `b` is a
possibly-undefined string: `b` exactly when `a` is undefined or empty. -/
def jsOr (a b : Option String) : Option String :=
  match a with
  | none => b
  | some s => if s = "" then b else some s

/-- JS `a || d` where `a` is a possibly-undefined string and `d` a string
literal default. -/
def jsOrD (a : Option String) (d : String) : String :=
  match a with
  | none => d
  | some s => if s = "" then d else s

/-- JS `a || d` on a possibly-undefined number (0 is falsy). -/
def jsOrQ (a : Option ℚ) (d : ℚ) : ℚ :=
  match a with
  | none => d
  | some v => if v = 0 then d else v

/-- Digit run to a natural number. -/
def digitsToNat (ds : List Char) : Nat :=
  ds.foldl (fun n c => 10 * n + (c.toNat - '0'.toNat)) 0

/-- Model of the JS builtin parseFloat on the decimal fragment it accepts
here: optional leading whitespace, optional sign, digits with an optional
fractional part and an optional exponent; trailing garbage is ignored and a
string with no parsable digits yields NaN.  (The `Infinity` literals are not
modelled; the inputs of this code base are GPS coordinate form fields.) -/
def parseFloat (s : String) : JsNumber :=
  let cs := s.toList.dropWhile fun c => c = ' ' ∨ c = '\t' ∨ c = '\n' ∨ c = '\r'
  let signAndRest : ℚ × List Char :=
    match cs with
    | '-' :: r => (-1, r)
    | '+' :: r => (1, r)
    | _ => (1, cs)
  let sign := signAndRest.1
  let cs1 := signAndRest.2
  let ipSplit := cs1.span Char.isDigit
  let ip := ipSplit.1
  let cs2 := ipSplit.2
  let fpSplit : List Char × List Char :=
    match cs2 with
    | '.' :: r => r.span Char.isDigit
    | _ => ([], cs2)
  let fp := fpSplit.1
  let cs3 := fpSplit.2
  if ip.isEmpty ∧ fp.isEmpty then JsNumber.nan
  else
    let mantissa : ℚ := (digitsToNat ip : ℚ) + (digitsToNat fp : ℚ) / ((10 ^ fp.length : ℕ) : ℚ)
    let expo : ℤ :=
      match cs3 with
      | c :: r =>
        if c = 'e' ∨ c = 'E' then
          let esignAndRest : ℤ × List Char :=
            match r with
            | '-' :: t => (-1, t)
            | '+' :: t => (1, t)
            | _ => (1, r)
          let eds := esignAndRest.2.takeWhile Char.isDigit
          if eds.isEmpty then 0 else esignAndRest.1 * (digitsToNat eds : ℤ)
        else 0
      | [] => 0
    let scale : ℚ := if 0 ≤ expo then ((10 ^ expo.toNat : ℕ) : ℚ)
      else 1 / ((10 ^ (-expo).toNat : ℕ) : ℚ)
    JsNumber.val (sign * mantissa * scale)

/-- IssueDetectionResult, the return shape of analyzeIssueImage
(src/server/openai.ts lines 9-15). -/
structure IssueDetectionResult where
  issueType : String
  confidence : ℚ
  description : String
  severity : String
  suggestedDepartment : String
deriving DecidableEq, Repr

/-- The raw JSON object parsed from the model response inside
analyzeIssueImage; every field may be absent. -/
structure RawDetection where
  issueType : Option String := none
  confidence : Option ℚ := none
  description : Option String := none
  severity : Option String := none
  suggestedDepartment : Option String := none
deriving DecidableEq, Repr

/-- The normalisation analyzeIssueImage applies to the parsed JSON
(src/server/openai.ts lines 55-61): defaults for falsy fields and the
confidence clamped by Math.max(0, Math.min(1, c)). -/
def mkDetection (result : RawDetection) : IssueDetectionResult where
  issueType := jsOrD result.issueType "other"
  confidence := max 0 (min 1 (jsOrQ result.confidence 0))
  description := jsOrD result.description "Issue detected in image"
  severity := jsOrD result.severity "medium"
  suggestedDepartment := jsOrD result.suggestedDepartment "General Services"

/-- The return shape of extractIssueFromText (src/server/openai.ts
lines 109-114); location is optional. -/
structure ExtractedInfo where
  issueType : String
  location : Option String := none
  description : String
  priority : String
deriving DecidableEq, Repr

/-- The explicit form fields of a POST /api/issues request body; every
field is a possibly-absent string. -/
structure CreateBody where
  title : Option String := none
  description : Option String := none
  issueType : Option String := none
  priority : Option String := none
  location : Option String := none
  latitude : Option String := none
  longitude : Option String := none
  address : Option String := none
  ward : Option String := none
  assignedDepartment : Option String := none
  reporterId : Option String := none
  photoUrl : Option String := none
  audioUrl : Option String := none
  language : Option String := none
deriving DecidableEq, Repr

/-- JS `b ? parseFloat(b) : null` on an optional string field
(src/server/openai.ts lines 261-262). -/
def parseCoord (o : Option String) : Option JsNumber :=
  match o with
  | none => none
  | some s => if s = "" then none else some (parseFloat s)

/-- The issueData payload assembled by the POST /api/issues handler
(src/server/openai.ts lines 255-273). -/
structure IssueData where
  title : String
  description : Option String
  issueType : String
  priority : String
  location : String
  latitude : Option JsNumber
  longitude : Option JsNumber
  address : String
  ward : String
  assignedDepartment : String
  reporterId : Option String
  photoUrl : Option String
  audioUrl : Option String
  transcription : Option String
  aiDetectionResult : Option IssueDetectionResult
  aiConfidence : Option ℚ
  language : String
deriving DecidableEq, Repr

/-- The field-fusion resolver: the object literal at src/server/openai.ts
lines 255-273, with `aiDetectionResult`/`extractedInfo`/`transcription`
being the values those local variables hold when the literal is built. -/
def issueDataOf (body : CreateBody) (aiDetectionResult : Option IssueDetectionResult)
    (extractedInfo : Option ExtractedInfo) (transcription : Option String) : IssueData where
  title := jsOrD (jsOr body.title (jsOr (aiDetectionResult.map (·.description))
    (extractedInfo.map (·.description)))) "New Issue"
  description := jsOr body.description (jsOr (aiDetectionResult.map (·.description))
    (extractedInfo.map (·.description)))
  issueType := jsOrD (jsOr body.issueType (jsOr (aiDetectionResult.map (·.issueType))
    (extractedInfo.map (·.issueType)))) "other"
  priority := jsOrD (jsOr body.priority (jsOr (aiDetectionResult.map (·.severity))
    (extractedInfo.map (·.priority)))) "medium"
  location := jsOrD (jsOr body.location (extractedInfo.bind (·.location))) ""
  latitude := parseCoord body.latitude
  longitude := parseCoord body.longitude
  address := jsOrD body.address ""
  ward := jsOrD body.ward ""
  assignedDepartment := jsOrD (jsOr body.assignedDepartment
    (aiDetectionResult.map (·.suggestedDepartment))) ""
  reporterId := jsOr body.reporterId none
  photoUrl := jsOr body.photoUrl none
  audioUrl := jsOr body.audioUrl none
  transcription := transcription
  aiDetectionResult := aiDetectionResult
  aiConfidence := aiDetectionResult.bind fun r => if r.confidence = 0 then none else some r.confidence
  language := jsOrD body.language "en"

example : (issueDataOf { title := some "T" } none none none).description = none := by decide

example : parseFloat "abc" = JsNumber.nan := by decide

example : parseFloat "3.5" = JsNumber.val (7 / 2) := by with_unfolding_all decide

/-- A row of the issues table (shared/schema.ts lines 74-100).  Timestamps
are integers (milliseconds); `createdAt` carries the defaultNow() value the
database fills in at insertion. -/
structure Issue where
  id : String
  reporterId : Option String := none
  title : String
  description : Option String := none
  issueType : String
  priority : String := "medium"
  status : IssueStatus := .submitted
  location : String
  latitude : Option JsNumber := none
  longitude : Option JsNumber := none
  address : Option String := none
  ward : Option String := none
  assignedDepartment : Option String := none
  assignedTo : Option String := none
  photoUrl : Option String := none
  audioUrl : Option String := none
  transcription : Option String := none
  aiDetectionResult : Option IssueDetectionResult := none
  aiConfidence : Option ℚ := none
  estimatedResolutionDays : Option ℤ := none
  actualResolutionDate : Option ℤ := none
  smsNotificationSent : Bool := false
  language : String := "en"
  createdAt : ℤ
  updatedAt : Option ℤ := none
deriving DecidableEq, Repr

/-- A row of the issue_status_history table (shared/schema.ts
lines 103-110). -/
structure HistoryEntry where
  issueId : Option String
  status : IssueStatus
  notes : Option String
  updatedBy : Option String
  createdAt : ℤ
deriving DecidableEq, Repr

/-- The persisted state the storage collaborator holds: issue rows and
status-history rows (insertion order). -/
structure Store where
  issues : List Issue
  history : List HistoryEntry
deriving DecidableEq, Repr

/-- The update object the PATCH /api/issues/:id/status handler builds
(src/server/openai.ts lines 301-304): a key is present exactly when the
handler assigned it; `status` is always present. -/
structure UpdateData where
  status : IssueStatus
  assignedDepartment : Option String := none
  assignedTo : Option String := none
  actualResolutionDate : Option ℤ := none
deriving DecidableEq, Repr

/-- Application of drizzle .set({...updates, updatedAt: new Date()}) to one
row (src/unnamed/part_000 lines 133-137): present keys overwrite, absent
keys are untouched, updatedAt is always stamped. -/
def applyUpdate (now : ℤ) (u : UpdateData) (i : Issue) : Issue :=
  { i with
    status := u.status
    assignedDepartment := match u.assignedDepartment with
      | some v => some v
      | none => i.assignedDepartment
    assignedTo := match u.assignedTo with
      | some v => some v
      | none => i.assignedTo
    actualResolutionDate := match u.actualResolutionDate with
      | some t => some t
      | none => i.actualResolutionDate
    updatedAt := some now }

/-- DatabaseStorage.updateIssue (src/unnamed/part_000 lines 132-139):
update every row whose id matches and return the first updated row;
`.returning()` on zero matched rows destructures to undefined (none). -/
def updateIssue (now : ℤ) (st : Store) (id : String) (u : UpdateData) :
    Option Issue × Store :=
  let updated := st.issues.map fun i => if i.id = id then applyUpdate now u i else i
  (updated.find? (fun i => i.id = id), { st with issues := updated })

/-- DatabaseStorage.addStatusHistory (src/unnamed/part_000 lines 141-144):
plain insert of one history row. -/
def addStatusHistory (now : ℤ) (st : Store) (issueId : Option String)
    (status : IssueStatus) (notes updatedBy : Option String) :
    HistoryEntry × Store :=
  let e : HistoryEntry := ⟨issueId, status, notes, updatedBy, now⟩
  (e, { st with history := st.history ++ [e] })

/-- The request body of PATCH /api/issues/:id/status
(src/server/openai.ts line 299). -/
structure PatchBody where
  status : IssueStatus
  notes : Option String := none
  updatedBy : Option String := none
  assignedDepartment : Option String := none
  assignedTo : Option String := none
deriving DecidableEq, Repr

/-- Responses the status-update boundary could produce.  The handler as
written only ever produces `ok`; `notFound` exists so that the spec's
Not-Found requirement is expressible. -/
inductive PatchResponse
  | ok (issue : Option Issue)
  | notFound
  | serverError
deriving DecidableEq, Repr

/-- The updateData literal of the PATCH handler (src/server/openai.ts
lines 301-304): truthy guards on the two assignment fields, resolution
stamp exactly when the requested status is resolved. -/
def mkUpdateData (now : ℤ) (body : PatchBody) : UpdateData where
  status := body.status
  assignedDepartment := if optTruthy body.assignedDepartment then body.assignedDepartment else none
  assignedTo := if optTruthy body.assignedTo then body.assignedTo else none
  actualResolutionDate := if body.status = .resolved then some now else none

/-- The PATCH /api/issues/:id/status handler (src/server/openai.ts
lines 297-321): updateIssue, then unconditionally addStatusHistory, then
res.json of whatever updateIssue returned. -/
def patchStatusRoute (now : ℤ) (st : Store) (id : String) (body : PatchBody) :
    PatchResponse × Store :=
  let u := mkUpdateData now body
  let step1 := updateIssue now st id u
  let step2 := addStatusHistory now step1.2 (some id) body.status body.notes body.updatedBy
  (.ok step1.1, step2.2)

/-- JS Math.round: nearest integer, ties toward positive infinity. -/
def jsRound (q : ℚ) : ℤ := ⌊q + 1 / 2⌋

/-- The stats record returned by DatabaseStorage.getIssueStats. -/
structure Stats where
  total : ℕ
  pending : ℕ
  inProgress : ℕ
  resolved : ℕ
  avgResolutionDays : ℚ
deriving DecidableEq, Repr

/-- DatabaseStorage.getIssueStats (src/unnamed/part_000 lines 180-215):
optional truthy department filter, counts, and the average of per-issue
ceil day counts rounded to one decimal (Math.round(x * 10) / 10); 0 when no
resolved issue with a resolution date exists. -/
def getIssueStats (department : Option String) (rows : List Issue) : Stats :=
  let allIssues := if optTruthy department
    then rows.filter (fun i => i.assignedDepartment = department)
    else rows
  let resolvedIssues := allIssues.filter fun i =>
    decide (i.status = .resolved) && i.actualResolutionDate.isSome
  { total := allIssues.length
    pending := (allIssues.filter fun i =>
      decide (i.status = .submitted) || decide (i.status = .acknowledged)).length
    inProgress := (allIssues.filter fun i => decide (i.status = .in_progress)).length
    resolved := (allIssues.filter fun i => decide (i.status = .resolved)).length
    avgResolutionDays :=
      if resolvedIssues.length > 0 then
        let totalDays : ℤ := resolvedIssues.foldl
          (fun sum i =>
            sum + ⌈((i.actualResolutionDate.getD 0 - i.createdAt : ℤ) : ℚ) / (1000 * 60 * 60 * 24)⌉)
          0
        (jsRound ((totalDays : ℚ) / (resolvedIssues.length : ℚ) * 10) : ℚ) / 10
      else 0 }

/-- Outcome of the audio branch of the POST /api/issues handler
(src/server/openai.ts lines 238-252), which runs transcribeAudio and then
extractIssueFromText inside one try/catch: the transcription variable is
assigned before extraction, so an extraction failure keeps the text. -/
inductive AudioOutcome
  | failTranscribe
  | failExtract (text : String) (language : String)
  | success (text : String) (language : String) (info : ExtractedInfo)
deriving DecidableEq, Repr

/-- The aiDetectionResult local after the photo branch
(src/server/openai.ts lines 222-235): none when no photo was uploaded, and
none again when analyzeIssueImage threw (the catch only logs). -/
def photoDetection : Option (Except Unit IssueDetectionResult) → Option IssueDetectionResult
  | none => none
  | some (.ok r) => some r
  | some (.error _) => none

/-- The (transcription, extractedInfo) locals after the audio branch
(src/server/openai.ts lines 238-252). -/
def audioFields : Option AudioOutcome → Option String × Option ExtractedInfo
  | none => (none, none)
  | some .failTranscribe => (none, none)
  | some (.failExtract t _) => (some t, none)
  | some (.success t _ info) => (some t, some info)

/-- Model of insertIssueSchema.parse (shared/schema.ts lines 140-144) on
the assembled payload: the pg enum columns must hold enum members and the
real columns reject NaN (zod z.number()); the remaining fields are strings
or optional strings and always pass. -/
def validateIssueData (d : IssueData) : Bool :=
  ["pothole", "garbage", "streetlight", "water_leakage", "road_damage", "other"].contains d.issueType
    && ["low", "medium", "high", "critical"].contains d.priority
    && ["en", "hi", "mr"].contains d.language
    && d.latitude ≠ some JsNumber.nan
    && d.longitude ≠ some JsNumber.nan

/-- The row createIssue inserts for a validated payload
(src/unnamed/part_000 lines 82-85 with the column defaults of
shared/schema.ts): status defaults to submitted, createdAt/updatedAt to
now. -/
def mkIssue (now : ℤ) (newId : String) (d : IssueData) : Issue where
  id := newId
  reporterId := d.reporterId
  title := d.title
  description := d.description
  issueType := d.issueType
  priority := d.priority
  status := .submitted
  location := d.location
  latitude := d.latitude
  longitude := d.longitude
  address := some d.address
  ward := some d.ward
  assignedDepartment := some d.assignedDepartment
  assignedTo := none
  photoUrl := d.photoUrl
  audioUrl := d.audioUrl
  transcription := d.transcription
  aiDetectionResult := d.aiDetectionResult
  aiConfidence := d.aiConfidence
  estimatedResolutionDays := none
  actualResolutionDate := none
  smsNotificationSent := false
  language := d.language
  createdAt := now
  updatedAt := some now

/-- Responses of the POST /api/issues boundary. -/
inductive CreateResponse
  | created (issue : Issue)
  | serverError
deriving DecidableEq, Repr

/-- The POST /api/issues handler (src/server/openai.ts lines 212-294)
after the AI branches: fuse the fields, validate, insert the issue and the
initial submitted history entry; a validation failure is caught and
answered with a 500 before any write. -/
def createIssueRoute (now : ℤ) (newId : String) (st : Store) (body : CreateBody)
    (photo : Option (Except Unit IssueDetectionResult)) (audio : Option AudioOutcome) :
    CreateResponse × Store :=
  let aiDetectionResult := photoDetection photo
  let ta := audioFields audio
  let d := issueDataOf body aiDetectionResult ta.2 ta.1
  if validateIssueData d then
    let newIssue := mkIssue now newId d
    let st1 : Store := { st with issues := st.issues ++ [newIssue] }
    let step := addStatusHistory now st1 (some newIssue.id) .submitted
      (some "Issue submitted") (jsOr body.reporterId none)
    (.created newIssue, step.2)
  else (.serverError, st)

/-! Helper lemmas. -/

theorem find?_map_update (l : List Issue) (id : String) (g : Issue → Issue)
    (hg : ∀ i, (g i).id = i.id) :
    (l.map fun i => if i.id = id then g i else i).find? (fun i => i.id = id) =
      (l.find? (fun i => i.id = id)).map g := by
  induction l with
  | nil => rfl
  | cons a l ih =>
    by_cases h : a.id = id
    · simp [List.find?_cons, h, hg]
    · simp [List.find?_cons, h, ih]

theorem length_filter_or (l : List Issue) (p q : Issue → Bool)
    (hdisj : ∀ a, p a = true → q a = false) :
    (l.filter fun a => p a || q a).length = l.countP p + l.countP q := by
  induction l with
  | nil => rfl
  | cons a l ih =>
    by_cases hp : p a = true
    · simp [List.filter_cons, List.countP_cons, hp, hdisj a hp, ih]
      omega
    · by_cases hq : q a = true
      · simp [List.filter_cons, List.countP_cons, hp, hq, ih]
        omega
      · simp [List.filter_cons, List.countP_cons, hp, hq, ih]

theorem foldl_add_eq_sum (l : List Issue) (g : Issue → ℤ) (init : ℤ) :
    l.foldl (fun s a => s + g a) init = init + (l.map g).sum := by
  induction l generalizing init with
  | nil => simp
  | cons a l ih => simp [List.foldl_cons, ih]; ring

/-- First defined non-empty string in the list, else the default: the
precedence policy as the spec words it. -/
def specFirstNonEmpty : List (Option String) → String → String
  | [], d => d
  | none :: rest, d => specFirstNonEmpty rest d
  | some s :: rest, d => if s = "" then specFirstNonEmpty rest d else s

theorem chain_eq_spec (a b c : Option String) (d : String) :
    jsOrD (jsOr a (jsOr b c)) d = specFirstNonEmpty [a, b, c] d := by
  cases a with
  | none =>
    cases b with
    | none => cases c <;> simp [jsOr, jsOrD, specFirstNonEmpty]
    | some s =>
      by_cases hs : s = "" <;> cases c <;>
        simp [jsOr, jsOrD, specFirstNonEmpty, hs]
  | some s =>
    by_cases hs : s = ""
    · cases b with
      | none => cases c <;> simp [jsOr, jsOrD, specFirstNonEmpty, hs]
      | some u =>
        by_cases hu : u = "" <;> cases c <;>
          simp [jsOr, jsOrD, specFirstNonEmpty, hs, hu]
    · simp [jsOr, jsOrD, specFirstNonEmpty, hs]

theorem patchStatusRoute_fst (now : ℤ) (st : Store) (id : String) (body : PatchBody) :
    (patchStatusRoute now st id body).1 =
      .ok ((st.issues.find? (fun j => j.id = id)).map (applyUpdate now (mkUpdateData now body))) := by
  show PatchResponse.ok ((st.issues.map
      fun i => if i.id = id then applyUpdate now (mkUpdateData now body) i else i).find?
        fun i => i.id = id) = _
  rw [find?_map_update st.issues id (applyUpdate now (mkUpdateData now body)) (fun _ => rfl)]

theorem patchStatusRoute_history (now : ℤ) (st : Store) (id : String) (body : PatchBody) :
    (patchStatusRoute now st id body).2.history =
      st.history ++ [⟨some id, body.status, body.notes, body.updatedBy, now⟩] := rfl

/-! Claim theorems. -/

/-- Claim C1 (evaluation of the code at the failing input): a status update
against an id that matches no issue does NOT fail with a Not-Found
condition — the handler answers ok with an undefined issue — and a
StatusHistoryEntry IS appended even though the primary update applied to
nothing.  This contradicts the spec's failure semantics; see RESULTS. -/
theorem statusUpdate_missingIssue_behavior :
    (patchStatusRoute 1000 ⟨[], []⟩ "missing-id"
        { status := .acknowledged, notes := some "checking", updatedBy := some "admin-1" }).1 =
      PatchResponse.ok none
    ∧ (patchStatusRoute 1000 ⟨[], []⟩ "missing-id"
        { status := .acknowledged, notes := some "checking", updatedBy := some "admin-1" }).1 ≠
      PatchResponse.notFound
    ∧ (patchStatusRoute 1000 ⟨[], []⟩ "missing-id"
        { status := .acknowledged, notes := some "checking", updatedBy := some "admin-1" }).2.history =
      [⟨some "missing-id", .acknowledged, some "checking", some "admin-1", 1000⟩] := by
  decide

/-- Claim C2: on every applied status transition, actualResolutionDate is
stamped with the current time exactly when the new status is resolved; a
transition to any other status leaves the field as it was (never sets it,
never clears it). -/
theorem resolutionStamp_iff_resolved :
    ∀ (now : ℤ) (st : Store) (id : String) (body : PatchBody) (i : Issue),
      st.issues.find? (fun j => j.id = id) = some i →
      ∃ i', (patchStatusRoute now st id body).1 = .ok (some i')
        ∧ (body.status = .resolved → i'.actualResolutionDate = some now)
        ∧ (body.status ≠ .resolved → i'.actualResolutionDate = i.actualResolutionDate) := by
  intro now st id body i h
  refine ⟨applyUpdate now (mkUpdateData now body) i, ?_, ?_, ?_⟩
  · rw [patchStatusRoute_fst, h]
    rfl
  · intro hres
    simp [applyUpdate, mkUpdateData, hres]
  · intro hres
    simp [applyUpdate, mkUpdateData, hres]

def c2Issue : Issue :=
  { id := "w2", title := "T", issueType := "pothole", location := "L", createdAt := 0 }

/-- Witness for C2 at a concrete store and a resolved transition. -/
theorem resolutionStamp_iff_resolved_witness :
    (Store.mk [c2Issue] []).issues.find? (fun j => j.id = "w2") = some c2Issue
    ∧ ∃ i', (patchStatusRoute 77 ⟨[c2Issue], []⟩ "w2" { status := .resolved }).1 = .ok (some i')
        ∧ (IssueStatus.resolved = .resolved → i'.actualResolutionDate = some 77)
        ∧ (IssueStatus.resolved ≠ .resolved →
            i'.actualResolutionDate = c2Issue.actualResolutionDate) :=
  ⟨by decide,
    resolutionStamp_iff_resolved 77 ⟨[c2Issue], []⟩ "w2" { status := .resolved } c2Issue (by decide)⟩

def c9Issue : Issue :=
  { id := "i9", title := "T", issueType := "garbage", location := "L",
    assignedDepartment := some "Public Works", createdAt := 0 }

/-- The row the handler actually produces in the C9 counterexample
scenario. -/
def c9After : Issue := { c9Issue with status := .acknowledged, updatedAt := some 5 }

/-- The row the claim predicts in the C9 counterexample scenario (the
supplied empty string written through). -/
def c9Claimed : Issue := { c9After with assignedDepartment := some "" }

/-- Claim C9 counterexample: a status update that supplies the EMPTY STRING
for assignedDepartment does not overwrite the field — the truthy guard
`if (assignedDepartment)` skips it, so the old value "Public Works"
survives where the claim demands "". -/
theorem assignment_empty_string_counterexample :
    (patchStatusRoute 5 ⟨[c9Issue], []⟩ "i9"
        { status := .acknowledged, assignedDepartment := some "" }).1 = .ok (some c9After)
    ∧ c9After.assignedDepartment = some "Public Works"
    ∧ (patchStatusRoute 5 ⟨[c9Issue], []⟩ "i9"
        { status := .acknowledged, assignedDepartment := some "" }).1 ≠ .ok (some c9Claimed) := by
  decide

/-- Claim C9 (amended): supplying a NON-EMPTY assignedDepartment or
assignedTo overwrites that field in the same transition call; supplying
the empty string, like omitting the field, leaves it unchanged (JS truthy
guard); all fields not touched by the update keep their values. -/
theorem assignment_overwrite_amended :
    ∀ (now : ℤ) (st : Store) (id : String) (body : PatchBody) (i : Issue),
      st.issues.find? (fun j => j.id = id) = some i →
      ∃ i', (patchStatusRoute now st id body).1 = .ok (some i')
        ∧ (∀ v, body.assignedDepartment = some v → v ≠ "" → i'.assignedDepartment = some v)
        ∧ ((body.assignedDepartment = none ∨ body.assignedDepartment = some "") →
            i'.assignedDepartment = i.assignedDepartment)
        ∧ (∀ v, body.assignedTo = some v → v ≠ "" → i'.assignedTo = some v)
        ∧ ((body.assignedTo = none ∨ body.assignedTo = some "") → i'.assignedTo = i.assignedTo)
        ∧ i'.title = i.title ∧ i'.description = i.description ∧ i'.issueType = i.issueType
        ∧ i'.priority = i.priority ∧ i'.location = i.location ∧ i'.reporterId = i.reporterId
        ∧ i'.createdAt = i.createdAt := by
  intro now st id body i h
  refine ⟨applyUpdate now (mkUpdateData now body) i,
    ?_, ?_, ?_, ?_, ?_, rfl, rfl, rfl, rfl, rfl, rfl, rfl⟩
  · rw [patchStatusRoute_fst, h]
    rfl
  · intro v hv hne
    simp [applyUpdate, mkUpdateData, optTruthy, hv, hne]
  · rintro (hv | hv) <;> simp [applyUpdate, mkUpdateData, optTruthy, hv]
  · intro v hv hne
    simp [applyUpdate, mkUpdateData, optTruthy, hv, hne]
  · rintro (hv | hv) <;> simp [applyUpdate, mkUpdateData, optTruthy, hv]

/-- Witness for the amended C9 at a concrete store: a non-empty
assignedTo overwrites while an empty assignedDepartment is kept. -/
theorem assignment_overwrite_amended_witness :
    (Store.mk [c9Issue] []).issues.find? (fun j => j.id = "i9") = some c9Issue
    ∧ ∃ i', (patchStatusRoute 6 ⟨[c9Issue], []⟩ "i9"
          { status := .in_progress, assignedDepartment := some "", assignedTo := some "alex" }).1 =
        .ok (some i')
      ∧ (∀ v, (some "" : Option String) = some v → v ≠ "" → i'.assignedDepartment = some v)
      ∧ ((some "" = (none : Option String) ∨ (some "" : Option String) = some "") →
          i'.assignedDepartment = c9Issue.assignedDepartment)
      ∧ (∀ v, (some "alex" : Option String) = some v → v ≠ "" → i'.assignedTo = some v)
      ∧ ((some "alex" = (none : Option String) ∨ (some "alex" : Option String) = some "") →
          i'.assignedTo = c9Issue.assignedTo)
      ∧ i'.title = c9Issue.title ∧ i'.description = c9Issue.description
      ∧ i'.issueType = c9Issue.issueType ∧ i'.priority = c9Issue.priority
      ∧ i'.location = c9Issue.location ∧ i'.reporterId = c9Issue.reporterId
      ∧ i'.createdAt = c9Issue.createdAt :=
  ⟨by decide,
    assignment_overwrite_amended 6 ⟨[c9Issue], []⟩ "i9"
      { status := .in_progress, assignedDepartment := some "", assignedTo := some "alex" }
      c9Issue (by decide)⟩

/-- Claim C10: requesting status resolved on an issue that is already
resolved overwrites actualResolutionDate with the new update's time (the
original stamp is not preserved) and appends exactly one StatusHistoryEntry
with status resolved. -/
theorem reresolve_overwrites_stamp :
    ∀ (now : ℤ) (st : Store) (id : String) (body : PatchBody) (i : Issue) (t0 : ℤ),
      st.issues.find? (fun j => j.id = id) = some i →
      body.status = .resolved → i.status = .resolved → i.actualResolutionDate = some t0 →
      ∃ i', (patchStatusRoute now st id body).1 = .ok (some i')
        ∧ i'.actualResolutionDate = some now
        ∧ (patchStatusRoute now st id body).2.history =
            st.history ++ [⟨some id, .resolved, body.notes, body.updatedBy, now⟩] := by
  intro now st id body i t0 h hres _ _
  refine ⟨applyUpdate now (mkUpdateData now body) i, ?_, ?_, ?_⟩
  · rw [patchStatusRoute_fst, h]
    rfl
  · simp [applyUpdate, mkUpdateData, hres]
  · rw [patchStatusRoute_history, hres]

def c10Issue : Issue :=
  { id := "r10", title := "T", issueType := "pothole", location := "L",
    status := .resolved, actualResolutionDate := some 500, createdAt := 0 }

/-- Witness for C10: re-resolving an already-resolved issue at time 900
replaces the stamp 500 with 900 and appends one resolved history row. -/
theorem reresolve_overwrites_stamp_witness :
    (Store.mk [c10Issue] []).issues.find? (fun j => j.id = "r10") = some c10Issue
    ∧ c10Issue.status = .resolved ∧ c10Issue.actualResolutionDate = some 500
    ∧ ∃ i', (patchStatusRoute 900 ⟨[c10Issue], []⟩ "r10"
          { status := .resolved, notes := some "again", updatedBy := some "admin-2" }).1 =
        .ok (some i')
      ∧ i'.actualResolutionDate = some 900
      ∧ (patchStatusRoute 900 ⟨[c10Issue], []⟩ "r10"
          { status := .resolved, notes := some "again", updatedBy := some "admin-2" }).2.history =
        (Store.mk [c10Issue] []).history ++
          [⟨some "r10", .resolved, some "again", some "admin-2", 900⟩] :=
  ⟨by decide, by decide, by decide,
    reresolve_overwrites_stamp 900 ⟨[c10Issue], []⟩ "r10"
      { status := .resolved, notes := some "again", updatedBy := some "admin-2" }
      c10Issue 500 (by decide) rfl (by decide) (by decide)⟩

/-- Claim C4: the resolved title is the first non-empty value among user
title, image-detection description, voice-extraction description, literal
"New Issue"; and an explicit-field submission with no AI inputs keeps the
user's title, issueType and priority exactly. -/
theorem fusion_title_type_priority :
    ∀ (body : CreateBody) (det : Option IssueDetectionResult) (ext : Option ExtractedInfo)
      (tr : Option String),
      (issueDataOf body det ext tr).title =
        specFirstNonEmpty [body.title, det.map (·.description), ext.map (·.description)] "New Issue"
      ∧ (∀ s ty p, body.title = some s → s ≠ "" → body.issueType = some ty → ty ≠ "" →
          body.priority = some p → p ≠ "" →
          (issueDataOf body none none none).title = s
          ∧ (issueDataOf body none none none).issueType = ty
          ∧ (issueDataOf body none none none).priority = p) := by
  intro body det ext tr
  constructor
  · exact chain_eq_spec body.title (det.map (·.description)) (ext.map (·.description)) "New Issue"
  · intro s ty p hs hsne hty htyne hp hpne
    refine ⟨?_, ?_, ?_⟩ <;>
      simp [issueDataOf, jsOr, jsOrD, hs, hsne, hty, htyne, hp, hpne]

def c4Body : CreateBody :=
  { title := some "Broken light", issueType := some "streetlight", priority := some "high" }

/-- Witness for C4 on a concrete explicit-only submission. -/
theorem fusion_title_type_priority_witness :
    c4Body.title = some "Broken light" ∧ ("Broken light" ≠ "")
    ∧ c4Body.issueType = some "streetlight" ∧ ("streetlight" ≠ "")
    ∧ c4Body.priority = some "high" ∧ ("high" ≠ "")
    ∧ ((issueDataOf c4Body none none none).title = "Broken light"
      ∧ (issueDataOf c4Body none none none).issueType = "streetlight"
      ∧ (issueDataOf c4Body none none none).priority = "high") :=
  ⟨rfl, by decide, rfl, by decide, rfl, by decide,
    (fusion_title_type_priority c4Body none none none).2 "Broken light" "streetlight" "high"
      rfl (by decide) rfl (by decide) rfl (by decide)⟩

/-- Claim C5 counterexample: with an empty user description and no AI
inputs the stored description is null, NOT the literal "New Issue" — the
description chain has no hard-coded default (src/server/openai.ts
line 257 ends at extractedInfo?.description). -/
theorem description_default_counterexample :
    (issueDataOf ({ title := some "T" } : CreateBody) none none none).description = none
    ∧ (issueDataOf ({ title := some "T" } : CreateBody) none none none).description ≠
        some "New Issue" := by
  decide

/-- Claim C5 (amended): description follows the user > image > voice
first-non-empty precedence, but with no literal default — when the user
and image descriptions are empty or absent, the voice description is used
as-is, and when the voice result is also absent the description is absent
(null), never "New Issue". -/
theorem description_precedence_no_default :
    ∀ (body : CreateBody) (det : Option IssueDetectionResult) (ext : Option ExtractedInfo)
      (tr : Option String),
      (∀ s, body.description = some s → s ≠ "" →
        (issueDataOf body det ext tr).description = some s)
      ∧ ((body.description = none ∨ body.description = some "") →
          (∀ r, det = some r → r.description ≠ "" →
            (issueDataOf body det ext tr).description = some r.description)
          ∧ ((det = none ∨ ∃ r, det = some r ∧ r.description = "") →
              (∀ e, ext = some e → (issueDataOf body det ext tr).description = some e.description)
              ∧ (ext = none → (issueDataOf body det ext tr).description = none))) := by
  intro body det ext tr
  refine ⟨?_, ?_⟩
  · intro s hs hne
    simp [issueDataOf, jsOr, hs, hne]
  · intro hbody
    refine ⟨?_, ?_⟩
    · intro r hr hrne
      rcases hbody with h | h <;> simp [issueDataOf, jsOr, h, hr, hrne]
    · intro hdet
      constructor
      · intro e he
        rcases hbody with h | h <;>
          rcases hdet with hd | ⟨r, hr, hrd⟩ <;>
          simp_all [issueDataOf, jsOr]
      · intro hext
        rcases hbody with h | h <;>
          rcases hdet with hd | ⟨r, hr, hrd⟩ <;>
          simp_all [issueDataOf, jsOr]

def c5Body : CreateBody := { description := some "User words" }

/-- Witness for the amended C5: a non-empty user description wins. -/
theorem description_precedence_no_default_witness :
    c5Body.description = some "User words" ∧ ("User words" ≠ "")
    ∧ (issueDataOf c5Body none none none).description = some "User words" :=
  ⟨rfl, by decide,
    (description_precedence_no_default c5Body none none none).1 "User words" rfl (by decide)⟩

/-- Claim C6 counterexample: the unparsable GPS input "abc" is stored as
NaN, not as null — parseFloat("abc") is NaN and the truthy guard only
nulls absent or empty strings. -/
theorem gps_invalid_not_null_counterexample :
    (issueDataOf ({ latitude := some "abc" } : CreateBody) none none none).latitude =
      some JsNumber.nan
    ∧ (issueDataOf ({ latitude := some "abc" } : CreateBody) none none none).latitude ≠ none := by
  decide

/-- Claim C6 (amended): absent or empty GPS inputs become null and the
parse is total (never throws); a non-empty input is stored as parseFloat's
value, which is NaN — not null — for unparsable input; a NaN coordinate is
then rejected by schema validation rather than stored. -/
theorem gps_parse_amended :
    ∀ (body : CreateBody) (det : Option IssueDetectionResult) (ext : Option ExtractedInfo)
      (tr : Option String),
      ((body.latitude = none ∨ body.latitude = some "") →
        (issueDataOf body det ext tr).latitude = none)
      ∧ (∀ s, body.latitude = some s → s ≠ "" →
          (issueDataOf body det ext tr).latitude = some (parseFloat s))
      ∧ ((body.longitude = none ∨ body.longitude = some "") →
          (issueDataOf body det ext tr).longitude = none)
      ∧ (∀ s, body.longitude = some s → s ≠ "" →
          (issueDataOf body det ext tr).longitude = some (parseFloat s))
      ∧ (∀ d : IssueData, d.latitude = some JsNumber.nan → validateIssueData d = false) := by
  intro body det ext tr
  refine ⟨?_, ?_, ?_, ?_, ?_⟩
  · rintro (h | h) <;> simp [issueDataOf, parseCoord, h]
  · intro s hs hne
    simp [issueDataOf, parseCoord, hs, hne]
  · rintro (h | h) <;> simp [issueDataOf, parseCoord, h]
  · intro s hs hne
    simp [issueDataOf, parseCoord, hs, hne]
  · intro d hd
    simp [validateIssueData, hd]

def c6Body : CreateBody := { latitude := some "19.07", longitude := some "" }

/-- Witness for the amended C6: a numeric latitude parses, an empty
longitude becomes null. -/
theorem gps_parse_amended_witness :
    c6Body.latitude = some "19.07" ∧ ("19.07" ≠ "")
    ∧ (issueDataOf c6Body none none none).latitude = some (parseFloat "19.07")
    ∧ (c6Body.longitude = none ∨ c6Body.longitude = some "")
    ∧ (issueDataOf c6Body none none none).longitude = none :=
  ⟨rfl, by decide,
    (gps_parse_amended c6Body none none none).2.1 "19.07" rfl (by decide),
    Or.inr rfl,
    (gps_parse_amended c6Body none none none).2.2.1 (Or.inr rfl)⟩

def c7Raw : RawDetection :=
  { issueType := some "pothole", confidence := some 0, description := some "Large pothole",
    severity := some "high", suggestedDepartment := some "Public Works" }

/-- Claim C7 counterexample: a detection whose (clamped) confidence is 0
is stored as aiConfidence = null, not 0 — `aiDetectionResult?.confidence ||
null` treats the number 0 as falsy. -/
theorem aiConfidence_zero_counterexample :
    (mkDetection c7Raw).confidence = 0
    ∧ max 0 (min 1 (mkDetection c7Raw).confidence) = 0
    ∧ (issueDataOf ({} : CreateBody) (some (mkDetection c7Raw)) none none).aiConfidence = none
    ∧ (issueDataOf ({} : CreateBody) (some (mkDetection c7Raw)) none none).aiConfidence ≠
        some (max 0 (min 1 (mkDetection c7Raw).confidence)) := by
  with_unfolding_all decide

/-- Claim C7 (amended): the analyzer clamps confidence into [0,1]; a
present detection stores its confidence as aiConfidence exactly when that
confidence is non-zero, a zero confidence is stored as null, and an absent
detection gives null. -/
theorem aiConfidence_amended :
    (∀ raw : RawDetection,
      0 ≤ (mkDetection raw).confidence ∧ (mkDetection raw).confidence ≤ 1)
    ∧ (∀ (body : CreateBody) (ext : Option ExtractedInfo) (tr : Option String)
        (det : IssueDetectionResult),
        (det.confidence ≠ 0 →
          (issueDataOf body (some det) ext tr).aiConfidence = some det.confidence)
        ∧ (det.confidence = 0 → (issueDataOf body (some det) ext tr).aiConfidence = none)
        ∧ (issueDataOf body none ext tr).aiConfidence = none) := by
  constructor
  · intro raw
    exact ⟨le_max_left 0 _, max_le (by norm_num) (min_le_left 1 _)⟩
  · intro body ext tr det
    refine ⟨?_, ?_, rfl⟩
    · intro h
      simp [issueDataOf, Option.bind, h]
    · intro h
      simp [issueDataOf, Option.bind, h]

def c7GoodRaw : RawDetection := { confidence := some (92 / 100) }

/-- Witness for the amended C7 at confidence 0.92. -/
theorem aiConfidence_amended_witness :
    (0 ≤ (mkDetection c7GoodRaw).confidence ∧ (mkDetection c7GoodRaw).confidence ≤ 1)
    ∧ (mkDetection c7GoodRaw).confidence ≠ 0
    ∧ (issueDataOf ({} : CreateBody) (some (mkDetection c7GoodRaw)) none none).aiConfidence =
        some (mkDetection c7GoodRaw).confidence :=
  ⟨aiConfidence_amended.1 c7GoodRaw, by with_unfolding_all decide,
    (aiConfidence_amended.2 {} none none (mkDetection c7GoodRaw)).1
      (by with_unfolding_all decide)⟩

/-- Claim C8: an AI image-analysis failure makes the submission behave
exactly as if no photo were uploaded; a transcription failure exactly as
if no audio were uploaded; an extraction failure keeps only the
transcription text and otherwise behaves as the no-audio case — the
submission never fails because of an AI failure and the error is not
surfaced in the response. -/
theorem ai_failures_degrade_gracefully :
    (∀ (now : ℤ) (newId : String) (st : Store) (body : CreateBody) (e : Unit)
        (audio : Option AudioOutcome),
        createIssueRoute now newId st body (some (.error e)) audio =
          createIssueRoute now newId st body none audio)
    ∧ (∀ (now : ℤ) (newId : String) (st : Store) (body : CreateBody)
        (photo : Option (Except Unit IssueDetectionResult)),
        createIssueRoute now newId st body photo (some .failTranscribe) =
          createIssueRoute now newId st body photo none)
    ∧ (∀ (now : ℤ) (newId : String) (st : Store) (body : CreateBody)
        (photo : Option (Except Unit IssueDetectionResult)) (t lang : String),
        ((createIssueRoute now newId st body photo (some (.failExtract t lang))).1 =
            .serverError ↔
          (createIssueRoute now newId st body photo none).1 = .serverError)
        ∧ (∀ i, (createIssueRoute now newId st body photo none).1 = .created i →
            (createIssueRoute now newId st body photo (some (.failExtract t lang))).1 =
              .created { i with transcription := some t })) := by
  refine ⟨fun now newId st body e audio => rfl, fun now newId st body photo => rfl, ?_⟩
  intro now newId st body photo t lang
  constructor
  · by_cases hv :
        validateIssueData (issueDataOf body (photoDetection photo) none none) = true
    · have hv1 :
          validateIssueData (issueDataOf body (photoDetection photo) none (some t)) = true := hv
      unfold createIssueRoute
      simp only [audioFields]
      rw [if_pos hv, if_pos hv1]
      simp
    · have hv1 :
          ¬ validateIssueData (issueDataOf body (photoDetection photo) none (some t)) = true := hv
      unfold createIssueRoute
      simp only [audioFields]
      rw [if_neg hv, if_neg hv1]
  · intro i h
    by_cases hv :
        validateIssueData (issueDataOf body (photoDetection photo) none none) = true
    · have hv1 :
          validateIssueData (issueDataOf body (photoDetection photo) none (some t)) = true := hv
      have h2 : CreateResponse.created
          (mkIssue now newId (issueDataOf body (photoDetection photo) none none)) =
          .created i := by
        have h3 := h
        unfold createIssueRoute at h3
        simp only [audioFields] at h3
        rw [if_pos hv] at h3
        exact h3
      injection h2 with h4
      unfold createIssueRoute
      simp only [audioFields]
      rw [if_pos hv1]
      rw [← h4]
      rfl
    · exfalso
      unfold createIssueRoute at h
      simp only [audioFields] at h
      rw [if_neg hv] at h
      exact CreateResponse.noConfusion h

def c8Body : CreateBody :=
  { title := some "T", issueType := some "pothole", location := some "Main St" }

/-- Witness for C8: a concrete valid submission where extraction failed
— the issue is still created, carrying the transcription text. -/
theorem ai_failures_degrade_gracefully_witness :
    (createIssueRoute 3 "id-1" ⟨[], []⟩ c8Body none none).1 =
      .created (mkIssue 3 "id-1" (issueDataOf c8Body none none none))
    ∧ (createIssueRoute 3 "id-1" ⟨[], []⟩ c8Body none (some (.failExtract "voice text" "en"))).1 =
      .created { mkIssue 3 "id-1" (issueDataOf c8Body none none none) with
          transcription := some "voice text" } :=
  ⟨by decide,
    (ai_failures_degrade_gracefully.2.2 3 "id-1" ⟨[], []⟩ c8Body none "voice text" "en").2
      (mkIssue 3 "id-1" (issueDataOf c8Body none none none)) (by decide)⟩

/-- Per-issue resolution duration in days:
Math.ceil((resolutionDate - createdAt) / 86400000 ms), i.e. the ceiling of
the difference over 86400 seconds. -/
def dayCount (i : Issue) : ℤ :=
  ⌈((i.actualResolutionDate.getD 0 - i.createdAt : ℤ) : ℚ) / 86400000⌉

/-- The average resolution time as the spec words it: the mean of the
per-issue ceil day counts over resolved issues carrying a resolution date,
rounded to one decimal place, and exactly 0 when no issue qualifies. -/
def specAvgResolutionDays (rows : List Issue) : ℚ :=
  let q := rows.filter fun i => decide (i.status = .resolved) && i.actualResolutionDate.isSome
  if q.length = 0 then 0
  else (jsRound (((q.map dayCount).sum : ℚ) / (q.length : ℚ) * 10) : ℚ) / 10

theorem getIssueStats_filter (d : String) (hd : d ≠ "") (rows : List Issue) :
    getIssueStats (some d) rows =
      getIssueStats none (rows.filter fun i => i.assignedDepartment = some d) := by
  unfold getIssueStats
  simp [optTruthy, hd]

theorem getIssueStats_none_spec (l : List Issue) :
    (getIssueStats none l).total = l.length
    ∧ (getIssueStats none l).pending =
        l.countP (fun i => decide (i.status = .submitted)) +
          l.countP (fun i => decide (i.status = .acknowledged))
    ∧ (getIssueStats none l).inProgress = l.countP (fun i => decide (i.status = .in_progress))
    ∧ (getIssueStats none l).resolved = l.countP (fun i => decide (i.status = .resolved))
    ∧ (getIssueStats none l).avgResolutionDays = specAvgResolutionDays l := by
  refine ⟨rfl, ?_, ?_, ?_, ?_⟩
  · exact length_filter_or l _ _ fun a ha => by
      simp at ha ⊢
      simp [ha]
  · exact (List.countP_eq_length_filter _ _).symm
  · exact (List.countP_eq_length_filter _ _).symm
  · have key : ∀ q : List Issue,
        (if q.length > 0 then
          (jsRound (((q.foldl
              (fun sum i =>
                sum + ⌈((i.actualResolutionDate.getD 0 - i.createdAt : ℤ) : ℚ) /
                  (1000 * 60 * 60 * 24)⌉) 0 : ℤ) : ℚ) / (q.length : ℚ) * 10) : ℚ) / 10
        else 0) =
        (if q.length = 0 then 0
        else (jsRound (((q.map dayCount).sum : ℚ) / (q.length : ℚ) * 10) : ℚ) / 10) := by
      intro q
      have hfun : (fun (sum : ℤ) (i : Issue) =>
          sum + ⌈((i.actualResolutionDate.getD 0 - i.createdAt : ℤ) : ℚ) /
            (1000 * 60 * 60 * 24)⌉) = fun sum i => sum + dayCount i := by
        funext sum i
        norm_num [dayCount]
      rw [hfun, foldl_add_eq_sum]
      by_cases hq : q.length = 0
      · simp [hq]
      · have hpos : q.length > 0 := Nat.pos_of_ne_zero hq
        simp [hq, hpos]
    exact key (l.filter fun i => decide (i.status = .resolved) && i.actualResolutionDate.isSome)

def threeDayIssue : Issue :=
  { id := "x", title := "t", issueType := "pothole", location := "l", status := .resolved,
    actualResolutionDate := some 259200000, createdAt := 0 }

/-- Claim C3: with a (non-empty) department filter the statistics are
computed over exactly the issues whose assignedDepartment matches; total,
pending (submitted + acknowledged, no double count), inProgress and
resolved are the evident counts; avgResolutionDays is the rounded mean of
ceil day counts over resolved issues with a resolution date, 0 when none
qualifies; the empty set yields 0 and one issue resolved three days after
creation yields 3.0. -/
theorem issueStats_correct :
    (∀ (rows : List Issue) (d : String), d ≠ "" →
      (getIssueStats (some d) rows).total =
        (rows.filter fun i => i.assignedDepartment = some d).length
      ∧ (getIssueStats (some d) rows).pending =
          (rows.filter fun i => i.assignedDepartment = some d).countP
              (fun i => decide (i.status = .submitted)) +
            (rows.filter fun i => i.assignedDepartment = some d).countP
              (fun i => decide (i.status = .acknowledged))
      ∧ (getIssueStats (some d) rows).inProgress =
          (rows.filter fun i => i.assignedDepartment = some d).countP
            (fun i => decide (i.status = .in_progress))
      ∧ (getIssueStats (some d) rows).resolved =
          (rows.filter fun i => i.assignedDepartment = some d).countP
            (fun i => decide (i.status = .resolved))
      ∧ (getIssueStats (some d) rows).avgResolutionDays =
          specAvgResolutionDays (rows.filter fun i => i.assignedDepartment = some d))
    ∧ (∀ rows : List Issue,
        (getIssueStats none rows).total = rows.length
        ∧ (getIssueStats none rows).pending =
            rows.countP (fun i => decide (i.status = .submitted)) +
              rows.countP (fun i => decide (i.status = .acknowledged))
        ∧ (getIssueStats none rows).inProgress =
            rows.countP (fun i => decide (i.status = .in_progress))
        ∧ (getIssueStats none rows).resolved =
            rows.countP (fun i => decide (i.status = .resolved))
        ∧ (getIssueStats none rows).avgResolutionDays = specAvgResolutionDays rows)
    ∧ (getIssueStats none []).avgResolutionDays = 0
    ∧ (getIssueStats none [threeDayIssue]).avgResolutionDays = 3 := by
  refine ⟨?_, getIssueStats_none_spec, rfl, ?_⟩
  · intro rows d hd
    rw [getIssueStats_filter d hd rows]
    exact getIssueStats_none_spec _
  · with_unfolding_all decide

def c3a : Issue :=
  { id := "a", title := "t", issueType := "pothole", location := "l",
    status := .submitted, assignedDepartment := some "Public Works", createdAt := 0 }

def c3b : Issue :=
  { id := "b", title := "t", issueType := "garbage", location := "l",
    status := .resolved, assignedDepartment := some "Sanitation",
    actualResolutionDate := some 100, createdAt := 0 }

/-- Witness for C3 at a concrete two-issue set filtered to Public Works. -/
theorem issueStats_correct_witness :
    ("Public Works" ≠ "")
    ∧ ((getIssueStats (some "Public Works") [c3a, c3b]).total =
        ([c3a, c3b].filter fun i => i.assignedDepartment = some "Public Works").length
      ∧ (getIssueStats (some "Public Works") [c3a, c3b]).pending =
          ([c3a, c3b].filter fun i => i.assignedDepartment = some "Public Works").countP
              (fun i => decide (i.status = .submitted)) +
            ([c3a, c3b].filter fun i => i.assignedDepartment = some "Public Works").countP
              (fun i => decide (i.status = .acknowledged))
      ∧ (getIssueStats (some "Public Works") [c3a, c3b]).inProgress =
          ([c3a, c3b].filter fun i => i.assignedDepartment = some "Public Works").countP
            (fun i => decide (i.status = .in_progress))
      ∧ (getIssueStats (some "Public Works") [c3a, c3b]).resolved =
          ([c3a, c3b].filter fun i => i.assignedDepartment = some "Public Works").countP
            (fun i => decide (i.status = .resolved))
      ∧ (getIssueStats (some "Public Works") [c3a, c3b]).avgResolutionDays =
          specAvgResolutionDays
            ([c3a, c3b].filter fun i => i.assignedDepartment = some "Public Works")) :=
  ⟨by decide, issueStats_correct.1 [c3a, c3b] "Public Works" (by decide)⟩

end CivicConnect
